import Mathlib

/-!
Shallow embedding of the Smart-Room controller
(src/atmega328p/arduino-uno-main.ino).

Modelling conventions:
- Arduino `unsigned long` millisecond timestamps become `Nat`. The source
  computes elapsed time as 32-bit wrapping subtraction `ms - last`; since
  every `last` field is only ever assigned an earlier value of `ms`, the
  wrapping subtraction agrees with truncated `Nat` subtraction, which is
  what we use.
- `float` sensor readings become `ℚ`: every comparison in the source is an
  exact comparison against a constant that is exactly representable, so no
  rounding behaviour is involved.
- Button electrical levels are `Bool` with `false` = LOW (pressed, the
  buttons are wired to ground with pull-ups) and `true` = HIGH (released).
- The global mutable variables that the claims mention (mode, nightEdit,
  eveningStart, nightEnd, editStartH, editEndH, manualLED, intervalMs) are
  collected in the record `Sys`.  Display-only globals (editBlinkOn,
  lastEditBlink and the OLED code) are not part of any claim and are
  omitted.
- `handleButtons` in the source polls the three debounced buttons itself
  via `checkPress`; here the three press events are parameters, and
  `checkPress` (the debounce filter) is modelled separately.
-/

/-- Operating mode, source enum `Mode { AUTO, MANUAL }`. -/
inductive Mode where
  | auto
  | manual
  deriving Repr, DecidableEq

/-- Night-edit progress, source enum
`NightEditState { NIGHT_EDIT_OFF, NIGHT_EDIT_START, NIGHT_EDIT_END }`. -/
inductive NightEditState where
  | off
  | editStart
  | editEnd
  deriving Repr, DecidableEq

/-- Combined alarm severity (the source keeps two flags `warningState`,
`criticalState`; the consumers prioritise critical over warning, which is
the combined level described by the spec). -/
inductive AlarmLevel where
  | normal
  | warning
  | critical
  deriving Repr, DecidableEq

/-- The claim-relevant global state of the sketch. -/
structure Sys where
  mode : Mode
  nightEdit : NightEditState
  intervalMs : Nat
  eveningStart : Nat
  nightEnd : Nat
  editStartH : Nat
  editEndH : Nat
  manualLED : Bool
  deriving Repr, DecidableEq

/-- Source `DEBOUNCE_MS = 35`. -/
def DEBOUNCE_MS : Nat := 35

/-- Source `wrapHour(int8_t h)`: `if (h < 0) return 23; if (h > 23) return 0;
return (uint8_t)h;`.  The `int8_t` argument is modelled as `Int`; every call
site passes `(int8_t)hour ± 1` with `hour` in `0..23`, where the cast is the
identity. -/
def wrapHour (h : Int) : Nat :=
  if h < 0 then 23
  else if h > 23 then 0
  else h.toNat

/-- Source `isEvening()`: the current hour `h` against the committed window
`eveningStart`/`nightEnd`.
`if (eveningStart < nightEnd) return (h >= eveningStart && h < nightEnd);
else return (h >= eveningStart || h < nightEnd);`. -/
def isEvening (eveningStart nightEnd h : Nat) : Bool :=
  if eveningStart < nightEnd then
    decide (eveningStart ≤ h ∧ h < nightEnd)
  else
    decide (eveningStart ≤ h ∨ h < nightEnd)

/-! Alarm thresholds, source `#define`s. -/

def TEMP_WARN_LOW : ℚ := 16
def TEMP_WARN_HIGH : ℚ := 26
def TEMP_CRIT_LOW : ℚ := 12
def TEMP_CRIT_HIGH : ℚ := 30
def HUM_WARN_LOW : ℚ := 30
def HUM_WARN_HIGH : ℚ := 65
def HUM_CRIT_LOW : ℚ := 20
def HUM_CRIT_HIGH : ℚ := 75

/-- Source `updateLogic`: `warningTemp = (tempC < TEMP_WARN_LOW) || (tempC > TEMP_WARN_HIGH)`. -/
def warningTemp (t : ℚ) : Bool :=
  decide (t < TEMP_WARN_LOW) || decide (TEMP_WARN_HIGH < t)

/-- Source `updateLogic`: `criticalTemp = (tempC < TEMP_CRIT_LOW) || (tempC > TEMP_CRIT_HIGH)`. -/
def criticalTemp (t : ℚ) : Bool :=
  decide (t < TEMP_CRIT_LOW) || decide (TEMP_CRIT_HIGH < t)

/-- Source `updateLogic`: `warningHum = (humP < HUM_WARN_LOW) || (humP > HUM_WARN_HIGH)`. -/
def warningHum (h : ℚ) : Bool :=
  decide (h < HUM_WARN_LOW) || decide (HUM_WARN_HIGH < h)

/-- Source `updateLogic`: `criticalHum = (humP < HUM_CRIT_LOW) || (humP > HUM_CRIT_HIGH)`. -/
def criticalHum (h : ℚ) : Bool :=
  decide (h < HUM_CRIT_LOW) || decide (HUM_CRIT_HIGH < h)

/-- Source `updateLogic`: `warning = warningTemp || warningHum` (becomes `warningState`). -/
def warningFlag (t h : ℚ) : Bool := warningTemp t || warningHum h

/-- Source `updateLogic`: `critical = criticalTemp || criticalHum` (becomes `criticalState`). -/
def criticalFlag (t h : ℚ) : Bool := criticalTemp t || criticalHum h

/-- Priority with which the two alarm flags are consumed by `ledAlarmUpdate`,
`buzzerPassive` and `drawOLED`: critical first, then warning, else normal. -/
def combinedLevel (warning critical : Bool) : AlarmLevel :=
  if critical then .critical
  else if warning then .warning
  else .normal

/-- The combined alarm level of a temperature/humidity pair, as the source
computes and consumes it. -/
def alarmLevel (t h : ℚ) : AlarmLevel :=
  combinedLevel (warningFlag t h) (criticalFlag t h)

/-- Source `updateLogic`:
`if (mode == AUTO) baseLedOn = (dark || evening); else baseLedOn = manualLED;`. -/
def baseOutput (mode : Mode) (manualLED dark evening : Bool) : Bool :=
  if mode = .auto then dark || evening else manualLED

/-! Debounced input, source `struct Button` and `checkPress`. -/

/-- Source `struct Button` (the `pin` field carries no logic and is
omitted; levels: `false` = LOW = pressed, `true` = HIGH = released). -/
structure Button where
  stableState : Bool
  lastReading : Bool
  lastChangeMs : Nat
  deriving Repr, DecidableEq

/-- Source `checkPress(Button&)`: one debounce poll at raw level `reading`
and time `ms`.  Returns the press event (true only on a stable transition
to LOW) together with the updated button state. -/
def checkPress (reading : Bool) (ms : Nat) (b : Button) : Bool × Button :=
  let b := if reading ≠ b.lastReading then
      { b with lastChangeMs := ms, lastReading := reading }
    else b
  if ms - b.lastChangeMs > DEBOUNCE_MS then
    if reading ≠ b.stableState then
      let b := { b with stableState := reading }
      (b.stableState = false, b)
    else (false, b)
  else (false, b)

/-! Serial command processing, source `readCmd`. -/

/-- Whitespace as Arduino `String::trim` (via `isspace`) treats it. -/
def isSpaceChar (c : Char) : Bool :=
  c = ' ' || c = '\t' || c = '\n' || c = '\u000b' || c = '\u000c' || c = '\r'

/-- Arduino `String::trim()`: strip leading and trailing whitespace. -/
def trimCmd (s : String) : String :=
  ⟨(((s.data.dropWhile isSpaceChar).reverse.dropWhile isSpaceChar).reverse)⟩

/-- The dispatch that `readCmd` performs on a complete line (the body of the
`c == '\n'` branch): trim the buffer, then match it against the recognized
tokens; an unrecognized token falls through with no effect. -/
def processLine (cmdRaw : String) (s : Sys) : Sys :=
  match trimCmd cmdRaw with
  | "MA" => { s with mode := .auto }
  | "ML" => { s with mode := .manual, manualLED := false }
  | "LO" => { s with manualLED := true }
  | "LOF" => { s with manualLED := false }
  | "SNI" => { s with eveningStart := wrapHour ((s.eveningStart : Int) + 1) }
  | "SND" => { s with eveningStart := wrapHour ((s.eveningStart : Int) - 1) }
  | "SI" => { s with nightEnd := wrapHour ((s.nightEnd : Int) + 1) }
  | "SD" => { s with nightEnd := wrapHour ((s.nightEnd : Int) - 1) }
  | "I" => { s with intervalMs := 1000 }
  | "I2" => { s with intervalMs := 2500 }
  | "I5" => { s with intervalMs := 5000 }
  | "I1" => { s with intervalMs := 10000 }
  | _ => s

/-- The recognized command tokens of `readCmd`. -/
def recognizedTokens : List String :=
  ["MA", "ML", "LO", "LOF", "SNI", "SND", "SI", "SD", "I", "I2", "I5", "I1"]

/-- One character of the `readCmd` loop: on `'\n'` dispatch the buffered
line and clear the buffer; `'\r'` is dropped; any other character is
appended, and a buffer that grows beyond 20 characters is cleared
(`if (cmd.length() > 20) cmd = "";`). -/
def readCmdStep (c : Char) (buf : String) (s : Sys) : String × Sys :=
  if c = '\n' then ("", processLine buf s)
  else if c = '\r' then (buf, s)
  else
    let buf := buf.push c
    if buf.length > 20 then ("", s) else (buf, s)

/-! Buttons and the night editor, source `handleButtons`. -/

/-- Source `handleButtons()`, with the three debounced press events
(`checkPress` on the NIGHT, MODE and TOGGLE buttons) as parameters.
NIGHT advances the night-edit machine; while editing, MODE/TOGGLE
decrement/increment the edited hour and the function returns before the
normal handling; otherwise MODE toggles AUTO/MANUAL (entering MANUAL
clears `manualLED`) and TOGGLE flips `manualLED` in MANUAL. -/
def handleButtons (nightP modeP togP : Bool) (s : Sys) : Sys :=
  let s :=
    if nightP then
      match s.nightEdit with
      | .off =>
          { s with nightEdit := .editStart,
                   editStartH := s.eveningStart, editEndH := s.nightEnd }
      | .editStart => { s with nightEdit := .editEnd }
      | .editEnd =>
          { s with eveningStart := s.editStartH, nightEnd := s.editEndH,
                   nightEdit := .off }
    else s
  if s.nightEdit ≠ .off then
    let s :=
      if modeP then
        if s.nightEdit = .editStart then
          { s with editStartH := wrapHour ((s.editStartH : Int) - 1) }
        else
          { s with editEndH := wrapHour ((s.editEndH : Int) - 1) }
      else s
    let s :=
      if togP then
        if s.nightEdit = .editStart then
          { s with editStartH := wrapHour ((s.editStartH : Int) + 1) }
        else
          { s with editEndH := wrapHour ((s.editEndH : Int) + 1) }
      else s
    s
  else
    let s :=
      if modeP then
        let m := if s.mode = .auto then Mode.manual else Mode.auto
        { s with mode := m,
                 manualLED := if m = .manual then false else s.manualLED }
      else s
    if togP then
      if s.mode = .manual then { s with manualLED := !s.manualLED } else s
    else s

/-- Successor function of the night-edit machine under a NIGHT press. -/
def nextEdit : NightEditState → NightEditState
  | .off => .editStart
  | .editStart => .editEnd
  | .editEnd => .off

/-! Alarm signaling, source `ledAlarmUpdate` and `buzzerPassive`. -/

/-- The `static` blink state inside `ledAlarmUpdate`. -/
structure LedBlink where
  lastToggle : Nat
  blinkOn : Bool
  deriving Repr, DecidableEq

/-- Source `ledAlarmUpdate(warning, critical, baseOn)`: returns the level
written to the LED pin this tick and the updated blink state.
Critical forces HIGH; warning toggles `blinkOn` every 200 ms and writes it;
otherwise the pin follows `baseOn`. -/
def ledAlarmUpdate (warning critical baseOn : Bool) (ms : Nat) (st : LedBlink) :
    Bool × LedBlink :=
  if critical then (true, st)
  else if warning then
    let st := if ms - st.lastToggle ≥ 200 then ⟨ms, !st.blinkOn⟩ else st
    (st.blinkOn, st)
  else (baseOn, st)

/-- The `static` beep state inside `buzzerPassive`, plus the buzzer pin
itself (`pin = some f` means `tone(f)` is sounding, `none` means silent):
in the warning branch the source writes the pin only when the 200 ms
period elapses, so the pin holds its previous value between toggles. -/
structure BuzzerSt where
  lastToggle : Nat
  beepOn : Bool
  pin : Option Nat
  deriving Repr, DecidableEq

/-- Source `buzzerPassive(warning, critical)`: critical plays a continuous
2000 Hz tone; warning toggles a 1200 Hz beep every 200 ms; otherwise
`noTone`. -/
def buzzerPassive (warning critical : Bool) (ms : Nat) (st : BuzzerSt) : BuzzerSt :=
  if critical then { st with pin := some 2000 }
  else if warning then
    if ms - st.lastToggle ≥ 200 then
      let b := !st.beepOn
      { lastToggle := ms, beepOn := b, pin := if b then some 1200 else none }
    else st
  else { st with pin := none }

/-! Concrete states used to instantiate the theorems below. -/

/-- A sample system state matching the sketch's power-on globals. -/
def sampleSys : Sys :=
  { mode := .auto, nightEdit := .off, intervalMs := 1000,
    eveningStart := 20, nightEnd := 6, editStartH := 20, editEndH := 6,
    manualLED := false }

/-- A sample state sitting in the `EditingEnd` stage with edited drafts. -/
def sampleEditEnd : Sys :=
  { sampleSys with nightEdit := .editEnd, editStartH := 21, editEndH := 7 }

/-- A sample state sitting in the `EditingStart` stage. -/
def sampleEditStart : Sys :=
  { sampleSys with nightEdit := .editStart }

/-- A sample button state: stable released, raw released, last change at 0 ms. -/
def sampleButton : Button :=
  { stableState := true, lastReading := true, lastChangeMs := 0 }

/-- A sample LED blink state. -/
def sampleLed : LedBlink := { lastToggle := 0, blinkOn := false }

/-- A sample buzzer state. -/
def sampleBuzzer : BuzzerSt := { lastToggle := 0, beepOn := false, pin := none }

/-! Helper characterizations shared by several proofs. -/

/-- Characterization of `combinedLevel` on the two alarm flags. -/
theorem combinedLevel_eq (w c : Bool) :
    (combinedLevel w c = .critical ↔ c = true)
  ∧ (combinedLevel w c = .warning ↔ c = false ∧ w = true)
  ∧ (combinedLevel w c = .normal ↔ c = false ∧ w = false) := by
  cases w <;> cases c <;> simp [combinedLevel]

/-- The critical flag fires exactly on a breach of a critical band. -/
theorem criticalFlag_iff (t h : ℚ) :
    criticalFlag t h = true ↔
      t < TEMP_CRIT_LOW ∨ TEMP_CRIT_HIGH < t ∨ h < HUM_CRIT_LOW ∨ HUM_CRIT_HIGH < h := by
  simp [criticalFlag, criticalTemp, criticalHum, or_assoc]

/-- The warning flag fires exactly on a breach of a warning band. -/
theorem warningFlag_iff (t h : ℚ) :
    warningFlag t h = true ↔
      t < TEMP_WARN_LOW ∨ TEMP_WARN_HIGH < t ∨ h < HUM_WARN_LOW ∨ HUM_WARN_HIGH < h := by
  simp [warningFlag, warningTemp, warningHum, or_assoc]

/-- C4: the combined alarm level is Critical iff some metric breaches its
critical band, else Warning iff some metric breaches its warning band, else
Normal; 11 °C is Critical for every humidity, and with nominal humidity
(50 %) 15 °C is Warning and 20 °C is Normal. -/
theorem alarmLevel_spec (t h : ℚ) :
    (alarmLevel t h = .critical ↔
       t < TEMP_CRIT_LOW ∨ TEMP_CRIT_HIGH < t ∨ h < HUM_CRIT_LOW ∨ HUM_CRIT_HIGH < h)
  ∧ (alarmLevel t h = .warning ↔
       ¬(t < TEMP_CRIT_LOW ∨ TEMP_CRIT_HIGH < t ∨ h < HUM_CRIT_LOW ∨ HUM_CRIT_HIGH < h)
       ∧ (t < TEMP_WARN_LOW ∨ TEMP_WARN_HIGH < t ∨ h < HUM_WARN_LOW ∨ HUM_WARN_HIGH < h))
  ∧ (alarmLevel t h = .normal ↔
       ¬(t < TEMP_CRIT_LOW ∨ TEMP_CRIT_HIGH < t ∨ h < HUM_CRIT_LOW ∨ HUM_CRIT_HIGH < h)
       ∧ ¬(t < TEMP_WARN_LOW ∨ TEMP_WARN_HIGH < t ∨ h < HUM_WARN_LOW ∨ HUM_WARN_HIGH < h))
  ∧ alarmLevel 11 h = .critical
  ∧ alarmLevel 15 50 = .warning
  ∧ alarmLevel 20 50 = .normal := by
  obtain ⟨hc, hw, hn⟩ := combinedLevel_eq (warningFlag t h) (criticalFlag t h)
  refine ⟨?_, ?_, ?_, ?_, by decide, by decide⟩
  · rw [alarmLevel, hc, criticalFlag_iff]
  · rw [alarmLevel, hw, ← criticalFlag_iff, ← warningFlag_iff]
    simp
  · rw [alarmLevel, hn, ← criticalFlag_iff, ← warningFlag_iff]
    simp
  · rw [alarmLevel, (combinedLevel_eq _ _).1, criticalFlag_iff]
    norm_num [TEMP_CRIT_LOW]

/-- Witness for C4 at concrete readings. -/
theorem alarmLevel_spec_witness :
    alarmLevel 11 80 = .critical ∧ alarmLevel 15 50 = .warning ∧ alarmLevel 20 50 = .normal :=
  ⟨(alarmLevel_spec 11 80).2.2.2.1, (alarmLevel_spec 15 50).2.2.2.2.1,
   (alarmLevel_spec 20 50).2.2.2.2.2⟩

/-- C5: for hours in 0..23, a same-day window (`start < end`) contains `h`
iff `start ≤ h < end`, and a midnight-crossing window (`start ≥ end`)
contains `h` iff `h ≥ start` or `h < end`; with the four quoted examples. -/
theorem isEvening_spec (start e h : Nat) (_hh : h ≤ 23) :
    (start < e → (isEvening start e h = true ↔ start ≤ h ∧ h < e))
  ∧ (e ≤ start → (isEvening start e h = true ↔ start ≤ h ∨ h < e))
  ∧ isEvening 20 6 23 = true ∧ isEvening 20 6 10 = false
  ∧ isEvening 8 18 12 = true ∧ isEvening 8 18 20 = false := by
  refine ⟨fun hlt => ?_, fun hge => ?_, by decide, by decide, by decide, by decide⟩
  · simp [isEvening, hlt]
  · simp [isEvening, Nat.not_lt.mpr hge]

/-- Witness for C5 at hour 23 of the window 20–6. -/
theorem isEvening_spec_witness :
    (23 : Nat) ≤ 23 ∧ (6 ≤ 20 → (isEvening 20 6 23 = true ↔ 20 ≤ 23 ∨ 23 < 6)) :=
  ⟨by decide, (isEvening_spec 20 6 23 (by decide)).2.1⟩

/-- C2: a press of the night button advances the editor exactly one step of
the cycle Off → EditingStart → EditingEnd → Off; without a night press the
editor state is unchanged, and no serial command line changes it. -/
theorem nightEdit_cycle (s : Sys) (m t : Bool) (line : String) :
    (handleButtons true m t s).nightEdit = nextEdit s.nightEdit
  ∧ (handleButtons false m t s).nightEdit = s.nightEdit
  ∧ (processLine line s).nightEdit = s.nightEdit := by
  refine ⟨?_, ?_, ?_⟩
  · cases hs : s.nightEdit <;> cases m <;> cases t <;>
      simp [handleButtons, nextEdit, hs] <;> cases s.mode <;> simp [hs]
  · cases hs : s.nightEdit <;> cases m <;> cases t <;>
      simp [handleButtons, hs] <;> cases s.mode <;> simp [hs]
  · unfold processLine
    split <;> rfl

/-- Witness for C2: a night press in `Off` enters `EditingStart`. -/
theorem nightEdit_cycle_witness :
    (handleButtons true false false sampleSys).nightEdit = .editStart := by
  have h := (nightEdit_cycle sampleSys false false "").1
  simpa [sampleSys, nextEdit] using h

/-- C3: entering the editor copies the committed window into the draft and
leaves the committed window untouched; only the EditingEnd → Off transition
writes the draft into the committed window; without a night press the
committed window never changes. -/
theorem nightEdit_commit (s : Sys) (m t : Bool) :
    (s.nightEdit = .off →
        (handleButtons true false false s).editStartH = s.eveningStart
      ∧ (handleButtons true false false s).editEndH = s.nightEnd
      ∧ (handleButtons true m t s).eveningStart = s.eveningStart
      ∧ (handleButtons true m t s).nightEnd = s.nightEnd)
  ∧ (s.nightEdit = .editStart →
        (handleButtons true m t s).eveningStart = s.eveningStart
      ∧ (handleButtons true m t s).nightEnd = s.nightEnd)
  ∧ (s.nightEdit = .editEnd →
        (handleButtons true m t s).eveningStart = s.editStartH
      ∧ (handleButtons true m t s).nightEnd = s.editEndH)
  ∧ (handleButtons false m t s).eveningStart = s.eveningStart
  ∧ (handleButtons false m t s).nightEnd = s.nightEnd := by
  refine ⟨fun hs => ?_, fun hs => ?_, fun hs => ?_, ?_, ?_⟩
  · cases m <;> cases t <;> simp [handleButtons, hs]
  · cases m <;> cases t <;> simp [handleButtons, hs]
  · cases m <;> cases t <;> simp [handleButtons, hs] <;> cases s.mode <;> simp
  · cases hs : s.nightEdit <;> cases m <;> cases t <;>
      simp [handleButtons, hs] <;> cases s.mode <;> simp
  · cases hs : s.nightEdit <;> cases m <;> cases t <;>
      simp [handleButtons, hs] <;> cases s.mode <;> simp

/-- Witness for C3: entering the editor from `sampleSys` copies 20/6 into
the draft, and completing the edit from `sampleEditEnd` commits 21/7. -/
theorem nightEdit_commit_witness :
    (handleButtons true false false sampleSys).editStartH = 20
  ∧ (handleButtons true false false sampleEditEnd).eveningStart = 21 := by
  constructor
  · have h := ((nightEdit_commit sampleSys false false).1 rfl).1
    simpa [sampleSys] using h
  · have h := ((nightEdit_commit sampleEditEnd false false).2.2.1 rfl).1
    simpa [sampleEditEnd, sampleSys] using h

/-- C8: while editing, the mode button decrements and the toggle button
increments the hour being edited through `wrapHour`; `wrapHour` sends 24 to
0 and −1 to 23 and always lands in 0..23. -/
theorem editHour_wrap (s : Sys) :
    (s.nightEdit = .editStart →
        (handleButtons false true false s).editStartH = wrapHour ((s.editStartH : Int) - 1)
      ∧ (handleButtons false false true s).editStartH = wrapHour ((s.editStartH : Int) + 1))
  ∧ (s.nightEdit = .editEnd →
        (handleButtons false true false s).editEndH = wrapHour ((s.editEndH : Int) - 1)
      ∧ (handleButtons false false true s).editEndH = wrapHour ((s.editEndH : Int) + 1))
  ∧ wrapHour 24 = 0 ∧ wrapHour (-1) = 23
  ∧ (∀ h : Int, wrapHour h ≤ 23) := by
  refine ⟨fun hs => ?_, fun hs => ?_, by decide, by decide, fun h => ?_⟩
  · constructor <;> simp [handleButtons, hs]
  · constructor <;> simp [handleButtons, hs]
  · unfold wrapHour
    split_ifs <;> omega

/-- Witness for C8: incrementing the draft end hour 6 gives 7, and
incrementing an edited hour 23 wraps to 0. -/
theorem editHour_wrap_witness :
    (handleButtons false false true sampleEditEnd).editEndH = 8
  ∧ wrapHour 24 = 0 := by
  constructor
  · have h := ((editHour_wrap sampleEditEnd).2.1 rfl).2
    simpa [sampleEditEnd, sampleSys, wrapHour] using h
  · exact (editHour_wrap sampleSys).2.2.1

/-- C6: in Auto the base output is `dark OR evening`, in Manual it is the
manual request; entering Manual by the mode button (outside the editor) or
by the serial `ML` command resets the manual request to off. -/
theorem modeController_spec (s : Sys) (m dark evening : Bool) :
    baseOutput .auto m dark evening = (dark || evening)
  ∧ baseOutput .manual m dark evening = m
  ∧ (s.mode = .auto → s.nightEdit = .off →
        (handleButtons false true false s).mode = .manual
      ∧ (handleButtons false true false s).manualLED = false)
  ∧ (processLine "ML" s).mode = .manual
  ∧ (processLine "ML" s).manualLED = false := by
  refine ⟨rfl, rfl, fun hm hs => ?_, ?_, ?_⟩
  · simp [handleButtons, hs, hm]
  · simp [processLine, trimCmd, isSpaceChar]
  · simp [processLine, trimCmd, isSpaceChar]

/-- Witness for C6: from `sampleSys` (Auto, editor off) a mode press enters
Manual with the manual LED request cleared. -/
theorem modeController_spec_witness :
    (handleButtons false true false sampleSys).mode = .manual
  ∧ (handleButtons false true false sampleSys).manualLED = false :=
  (modeController_spec sampleSys false false false).2.2.1 rfl rfl

/-- C9: a complete line whose trimmed token is not recognized leaves the
whole state unchanged; a character other than a newline never changes the
state; and a buffer that would grow past 20 characters is cleared, so an
overlong unterminated line is discarded. -/
theorem unrecognized_noop (tok : String) (s : Sys) (c : Char) (buf : String)
    (hnot : trimCmd tok ∉ recognizedTokens) :
    processLine tok s = s
  ∧ (c ≠ '\n' → (readCmdStep c buf s).2 = s)
  ∧ (20 ≤ buf.length → c ≠ '\n' → c ≠ '\r' → readCmdStep c buf s = ("", s)) := by
  simp only [recognizedTokens, List.mem_cons, List.not_mem_nil, or_false, not_or] at hnot
  refine ⟨?_, fun hc => ?_, fun hlen hc hr => ?_⟩
  · unfold processLine
    split <;> simp_all
  · simp [readCmdStep, hc, apply_ite Prod.snd]
  · have hp : (buf.push c).length > 20 := by
      rw [String.length_push]; omega
    rw [readCmdStep, if_neg hc, if_neg hr]
    show (if (buf.push c).length > 20 then (("" : String), s) else (buf.push c, s)) = ("", s)
    rw [if_pos hp]

/-- Witness for C9: the token XX is ignored, and after a 20-character buffer
one more ordinary character discards the line. -/
theorem unrecognized_noop_witness :
    trimCmd "XX" ∉ recognizedTokens
  ∧ processLine "XX" sampleSys = sampleSys
  ∧ readCmdStep 'a' "AAAAAAAAAAAAAAAAAAAA" sampleSys = ("", sampleSys) := by
  have h := unrecognized_noop "XX" sampleSys 'a' "AAAAAAAAAAAAAAAAAAAA" (by decide)
  exact ⟨by decide, h.1, h.2.2 (by decide) (by decide) (by decide)⟩

/-- C10: the night-hour serial commands act on the committed window in
every editor state and never touch the draft hours or the editor state; a
subsequent EditingEnd → Off commit overwrites their effect with the draft;
the ML and LO commands stay effective during editing even though the mode
and toggle buttons are suppressed there. -/
theorem serialDuringEdit_spec (s : Sys) (m t : Bool) :
    ((processLine "SNI" s).eveningStart = wrapHour ((s.eveningStart : Int) + 1)
      ∧ (processLine "SNI" s).editStartH = s.editStartH
      ∧ (processLine "SNI" s).editEndH = s.editEndH
      ∧ (processLine "SNI" s).nightEdit = s.nightEdit)
  ∧ ((processLine "SND" s).eveningStart = wrapHour ((s.eveningStart : Int) - 1)
      ∧ (processLine "SND" s).editStartH = s.editStartH
      ∧ (processLine "SND" s).editEndH = s.editEndH)
  ∧ ((processLine "SI" s).nightEnd = wrapHour ((s.nightEnd : Int) + 1)
      ∧ (processLine "SI" s).editStartH = s.editStartH
      ∧ (processLine "SI" s).editEndH = s.editEndH)
  ∧ ((processLine "SD" s).nightEnd = wrapHour ((s.nightEnd : Int) - 1)
      ∧ (processLine "SD" s).editStartH = s.editStartH
      ∧ (processLine "SD" s).editEndH = s.editEndH)
  ∧ (s.nightEdit = .editEnd →
        (handleButtons true m t (processLine "SNI" s)).eveningStart = s.editStartH
      ∧ (handleButtons true m t (processLine "SNI" s)).nightEnd = s.editEndH)
  ∧ (processLine "ML" s).mode = .manual
  ∧ (processLine "LO" s).manualLED = true
  ∧ (s.nightEdit ≠ .off →
        (handleButtons false true false s).mode = s.mode
      ∧ (handleButtons false false true s).manualLED = s.manualLED) := by
  have hSNI : processLine "SNI" s =
      { s with eveningStart := wrapHour ((s.eveningStart : Int) + 1) } := rfl
  have hSND : processLine "SND" s =
      { s with eveningStart := wrapHour ((s.eveningStart : Int) - 1) } := rfl
  have hSI : processLine "SI" s =
      { s with nightEnd := wrapHour ((s.nightEnd : Int) + 1) } := rfl
  have hSD : processLine "SD" s =
      { s with nightEnd := wrapHour ((s.nightEnd : Int) - 1) } := rfl
  refine ⟨⟨?_, ?_, ?_, ?_⟩, ⟨?_, ?_, ?_⟩, ⟨?_, ?_, ?_⟩, ⟨?_, ?_, ?_⟩,
      fun hs => ?_, rfl, rfl, fun hs => ?_⟩
  · rw [hSNI]
  · rw [hSNI]
  · rw [hSNI]
  · rw [hSNI]
  · rw [hSND]
  · rw [hSND]
  · rw [hSND]
  · rw [hSI]
  · rw [hSI]
  · rw [hSI]
  · rw [hSD]
  · rw [hSD]
  · rw [hSD]
  · rw [hSNI]
    cases m <;> cases t <;> cases hm : s.mode <;> simp [handleButtons, hs, hm]
  · constructor
    · cases hsn : s.nightEdit <;> simp_all [handleButtons]
    · cases hsn : s.nightEdit <;> simp_all [handleButtons]

/-- Witness for C10: with the editor in EditingEnd, an SNI command bumps
the committed start hour to 21, yet the night press that follows commits
the draft start 21 over it from `sampleEditEnd`. -/
theorem serialDuringEdit_spec_witness :
    (processLine "SNI" sampleEditEnd).eveningStart = 21
  ∧ (handleButtons true false false (processLine "SNI" sampleEditEnd)).eveningStart = 21 := by
  have h := serialDuringEdit_spec sampleEditEnd false false
  constructor
  · have := h.1.1
    simpa [sampleEditEnd, sampleSys, wrapHour] using this
  · have := (h.2.2.2.2.1 rfl).1
    simpa [sampleEditEnd, sampleSys] using this

/-- C1: one debounce poll returns a press event iff the raw level equals
the previous reading (no restart this call), has held for more than the
35 ms window, and promotes the stable level from released (HIGH) to
pressed (LOW); a raw change restarts the window and yields no event; a
promotion to released yields no event; and after an event the same raw
level never yields a second event. -/
theorem checkPress_spec (reading : Bool) (ms : Nat) (b : Button) :
    ((checkPress reading ms b).1 = true ↔
       reading = b.lastReading ∧ DEBOUNCE_MS < ms - b.lastChangeMs
       ∧ reading ≠ b.stableState ∧ reading = false)
  ∧ (reading ≠ b.lastReading →
       (checkPress reading ms b).1 = false
     ∧ (checkPress reading ms b).2.lastChangeMs = ms)
  ∧ ((checkPress reading ms b).2.stableState = true →
       (checkPress reading ms b).1 = false)
  ∧ ((checkPress reading ms b).1 = true →
       ∀ ms2, (checkPress reading ms2 (checkPress reading ms b).2).1 = false) := by
  unfold checkPress
  cases reading <;> cases hl : b.lastReading <;> cases hstb : b.stableState <;>
    simp only [hl, hstb, DEBOUNCE_MS] <;>
    simp [apply_ite Prod.fst, apply_ite Button.stableState, apply_ite Button.lastChangeMs] <;>
    split_ifs with hd <;>
    simp_all [apply_ite Prod.fst]

/-- Witness for C1: raw LOW held since 0 ms and polled at 40 ms emits one
press event, and polling again at 50 ms emits none. -/
theorem checkPress_spec_witness :
    (checkPress false 40 { stableState := true, lastReading := false, lastChangeMs := 0 }).1 = true
  ∧ (checkPress false 50
      (checkPress false 40 { stableState := true, lastReading := false, lastChangeMs := 0 }).2).1
      = false := by
  have h := checkPress_spec false 40
    { stableState := true, lastReading := false, lastChangeMs := 0 }
  have he : (checkPress false 40
      { stableState := true, lastReading := false, lastChangeMs := 0 }).1 = true :=
    h.1.mpr ⟨rfl, by decide, by decide, rfl⟩
  exact ⟨he, h.2.2.2 he 50⟩

/-- C7: critical forces the LED high and a continuous 2000 Hz tone for any
base output, warning flag and prior state; warning without critical toggles
the LED and the beep on the 200 ms granularity independent of base output;
with no alarm the LED equals the base output and the buzzer is silenced,
for every prior signaling state, so clearing a condition de-escalates on
the very next tick. -/
theorem signaling_spec (w baseOn : Bool) (ms : Nat) (stL : LedBlink) (stB : BuzzerSt) :
    (ledAlarmUpdate w true baseOn ms stL).1 = true
  ∧ (ledAlarmUpdate w true baseOn ms stL).2 = stL
  ∧ (200 ≤ ms - stL.lastToggle →
       (ledAlarmUpdate true false baseOn ms stL).1 = !stL.blinkOn
     ∧ (ledAlarmUpdate true false baseOn ms stL).2 = ⟨ms, !stL.blinkOn⟩)
  ∧ (ms - stL.lastToggle < 200 →
       (ledAlarmUpdate true false baseOn ms stL).1 = stL.blinkOn
     ∧ (ledAlarmUpdate true false baseOn ms stL).2 = stL)
  ∧ ledAlarmUpdate false false baseOn ms stL = (baseOn, stL)
  ∧ buzzerPassive w true ms stB = { stB with pin := some 2000 }
  ∧ (200 ≤ ms - stB.lastToggle →
       buzzerPassive true false ms stB =
         { lastToggle := ms, beepOn := !stB.beepOn,
           pin := if !stB.beepOn then some 1200 else none })
  ∧ (ms - stB.lastToggle < 200 → buzzerPassive true false ms stB = stB)
  ∧ buzzerPassive false false ms stB = { stB with pin := none } := by
  refine ⟨?_, ?_, fun hdue => ?_, fun hnot => ?_, ?_, ?_, fun hdue => ?_,
      fun hnot => ?_, ?_⟩
  · simp [ledAlarmUpdate]
  · simp [ledAlarmUpdate]
  · constructor <;> simp [ledAlarmUpdate, hdue]
  · constructor <;> simp [ledAlarmUpdate, Nat.not_le.mpr hnot]
  · simp [ledAlarmUpdate]
  · simp [buzzerPassive]
  · simp [buzzerPassive, hdue]
  · simp [buzzerPassive, Nat.not_le.mpr hnot]
  · simp [buzzerPassive]

/-- Witness for C7: at 250 ms a warning toggles the LED on from
`sampleLed`, and with no alarm the buzzer from `sampleBuzzer` is silent. -/
theorem signaling_spec_witness :
    (ledAlarmUpdate true false true 250 sampleLed).1 = true
  ∧ buzzerPassive false false 250 sampleBuzzer = { sampleBuzzer with pin := none } := by
  have h := signaling_spec true true 250 sampleLed sampleBuzzer
  refine ⟨?_, h.2.2.2.2.2.2.2.2⟩
  have hled := (h.2.2.1 (by decide)).1
  simpa [sampleLed] using hled
